import Mathlib

/-!
Shallow embedding of the payment-demo billing core (invoice totaling,
payment processing, status derivation, and payment-to-item allocation),
translated from `src/services/receipt.service.ts` (receipt, payment and
invoice services), `src/utils/calculations.ts`, `src/utils/validation.ts`
and `src/config`.

Modelling conventions:
* JavaScript numbers are modelled as `JSNum` (a finite rational, NaN, or an
  infinity); after validation the finite rational is extracted.  Exact
  rational arithmetic stands in for IEEE doubles, with the source's rounding
  applied at every point the source rounds.
* `Math.round` is the floor of `x + 1/2` (ties toward positive infinity),
  which is the ECMAScript semantics of `Math.round` on exact values.
* The external generator collaborator (`generateId`, reference numbers) is
  passed in as explicit string parameters, and the external configuration
  collaborator as a `Config` record of the four numeric limits.
* Exceptions thrown and caught inside `processPayment` are modelled by the
  first error message produced by the validation chain (`firstPaymentError`);
  `Except String` models functions that let validation errors propagate.
-/

namespace Billing

/-- Model of a JavaScript number: a finite rational, NaN, or an infinity. -/
inductive JSNum where
  | num (q : ℚ)
  | nan
  | posInf
  | negInf
deriving DecidableEq

/-- `isNaN(x)` for a modelled JavaScript number. -/
def JSNum.isNaN : JSNum → Bool
  | .nan => true
  | _ => false

/-- `isFinite(x)` for a modelled JavaScript number. -/
def JSNum.isFinite : JSNum → Bool
  | .num _ => true
  | _ => false

/-- The JavaScript `<` comparison: any comparison with NaN is false. -/
def JSNum.ltB : JSNum → JSNum → Bool
  | .nan, _ => false
  | _, .nan => false
  | .negInf, .negInf => false
  | .negInf, _ => true
  | .posInf, _ => false
  | .num _, .posInf => true
  | .num _, .negInf => false
  | .num a, .num b => decide (a < b)

/-- The JavaScript `<=` comparison: any comparison with NaN is false. -/
def JSNum.leB : JSNum → JSNum → Bool
  | .nan, _ => false
  | _, .nan => false
  | .negInf, _ => true
  | .posInf, .posInf => true
  | .posInf, _ => false
  | .num _, .posInf => true
  | .num _, .negInf => false
  | .num a, .num b => decide (a ≤ b)

/-- The finite value of a modelled JavaScript number (used after the
validators have ruled out NaN and the infinities). -/
def JSNum.toRat : JSNum → ℚ
  | .num q => q
  | _ => 0

/-- Model of a JavaScript `Date`: its time value (`getTime()`), which is NaN
exactly when the date is invalid. -/
structure JSDate where
  time : JSNum
deriving DecidableEq

/-- Invoice status enumeration (`src/types`). -/
inductive InvoiceStatus where
  | PENDING
  | PARTIALLY_PAID
  | PAID
  | OVERPAID
  | CANCELLED
deriving DecidableEq

/-- Payment status enumeration (`src/types`). -/
inductive PaymentStatus where
  | PENDING
  | COMPLETED
  | FAILED
  | REFUNDED
deriving DecidableEq

/-- The recognized payment methods, the values of the `PaymentMethod` enum.
Payment methods travel as strings (the TypeScript enum is string valued) so
that unrecognized methods are representable, as in
`validatePaymentMethod`. -/
def validPaymentMethods : List String :=
  ["CASH", "BANK_TRANSFER", "CREDIT_CARD", "DEBIT_CARD", "CHECK"]

/-- Individual line item on an invoice (`src/types`). -/
structure InvoiceItem where
  id : String
  description : String
  quantity : ℚ
  unitPrice : ℚ
  lineTotal : ℚ
  taxRate : ℚ
  taxAmount : ℚ
deriving DecidableEq

/-- Invoice (`src/types`). -/
structure Invoice where
  id : String
  invoiceNumber : String
  invoiceDate : JSDate
  items : List InvoiceItem
  subtotal : ℚ
  totalAmount : ℚ
  totalTax : ℚ
  outstandingAmount : ℚ
  status : InvoiceStatus
deriving DecidableEq

/-- Payment record (`src/types`).  `amount` keeps the raw JavaScript number
that was passed in, as the source stores the unvalidated `paymentAmount`. -/
structure Payment where
  id : String
  invoiceId : String
  paymentMethod : String
  amount : JSNum
  paymentDate : JSDate
  referenceNumber : String
  status : PaymentStatus
deriving DecidableEq

/-- Line item on a receipt (`src/types`). -/
structure ReceiptItem where
  description : String
  amountAllocated : ℚ
deriving DecidableEq

/-- Receipt (`src/types`). -/
structure Receipt where
  id : String
  paymentId : String
  invoiceId : String
  receiptNumber : String
  receiptDate : JSDate
  totalPaid : JSNum
  remainingBalance : ℚ
  paymentMethod : String
  paymentReference : String
  items : List ReceiptItem
deriving DecidableEq

/-- Result of `processPayment` (`src/types` `PaymentResult`). -/
structure PaymentResult where
  success : Bool
  payment : Payment
  invoice : Invoice
  error : Option String
deriving DecidableEq

/-- The configured limits supplied by the external configuration
collaborator (`src/config`). -/
structure Config where
  minPaymentAmount : ℚ
  maxPaymentAmount : ℚ
  maxInvoiceAmount : ℚ
  maxLineItemAmount : ℚ
deriving DecidableEq

/-- The default configuration values from `src/config` (`loadConfig`). -/
def defaultConfig : Config :=
  { minPaymentAmount := 1 / 100
    maxPaymentAmount := 1000000
    maxInvoiceAmount := 1000000
    maxLineItemAmount := 500000 }

/-- ECMAScript `Math.round` on an exact value: the floor of `x + 1/2`
(ties round toward positive infinity). -/
def jsRound (x : ℚ) : ℚ :=
  ((⌊x + 1 / 2⌋ : ℤ) : ℚ)

/-- `roundToTwoDecimals` from `src/utils/calculations.ts`:
`Math.round(value * 100) / 100`. -/
def roundToTwoDecimals (value : ℚ) : ℚ :=
  jsRound (value * 100) / 100

/-- `calculateTaxAmount` from `src/utils/calculations.ts`. -/
def calculateTaxAmount (amount taxRate : ℚ) : ℚ :=
  roundToTwoDecimals (amount * taxRate)

/-- `sumWithRounding` from `src/utils/calculations.ts`: plain sum, then one
rounding of the result. -/
def sumWithRounding (values : List ℚ) : ℚ :=
  roundToTwoDecimals values.sum

/-- `validatePositiveNumber` from `src/utils/validation.ts`: the first
validation error it throws, or `none` when the value passes. -/
def validatePositiveNumber (value : JSNum) (fieldName : String) : Option String :=
  if value.isNaN then some (fieldName ++ " must be a valid number")
  else if value.leB (.num 0) then some (fieldName ++ " must be positive")
  else if value.isFinite then none
  else some (fieldName ++ " must be a finite number")

/-- `validateNonNegativeNumber` from `src/utils/validation.ts`. -/
def validateNonNegativeNumber (value : JSNum) (fieldName : String) : Option String :=
  if value.isNaN then some (fieldName ++ " must be a valid number")
  else if value.ltB (.num 0) then some (fieldName ++ " cannot be negative")
  else if value.isFinite then none
  else some (fieldName ++ " must be a finite number")

/-- `validateNonEmptyString` from `src/utils/validation.ts`: rejects strings
that are empty after trimming whitespace.  `value.trim().length === 0` holds
exactly when every character of the string is whitespace, which is how the
check is stated here. -/
def validateNonEmptyString (value : String) (fieldName : String) : Option String :=
  if value.data.all Char.isWhitespace then some (fieldName ++ " cannot be empty")
  else none

/-- `validateDate` from `src/utils/validation.ts`: a date is invalid exactly
when its time value is NaN. -/
def validateDate (value : JSDate) (fieldName : String) : Option String :=
  if value.time.isNaN then some (fieldName ++ " must be a valid date")
  else none

/-- `validatePaymentMethod` from `src/utils/validation.ts`. -/
def validatePaymentMethod (value : String) : Option String :=
  if value ∈ validPaymentMethods then none
  else some "Invalid payment method. Must be one of: CASH, BANK_TRANSFER, CREDIT_CARD, DEBIT_CARD, CHECK"

/-- `validateTaxRate` from `src/utils/validation.ts`. -/
def validateTaxRate (taxRate : ℚ) : Option String :=
  match validateNonNegativeNumber (.num taxRate) "Tax rate" with
  | some e => some e
  | none =>
      if 1 < taxRate then
        some "Tax rate must be between 0 and 1 (e.g., 0.07 for 7%)"
      else none

/-- `validatePaymentAmountLimits` from `src/utils/validation.ts`.  The
source interpolates the limit via `toLocaleString`; string rendering of the
limit is modelled by `toString`. -/
def validatePaymentAmountLimits (cfg : Config) (amount : JSNum) : Option String :=
  if amount.ltB (.num cfg.minPaymentAmount) then
    some ("Payment amount must be at least $" ++ toString cfg.minPaymentAmount)
  else if (JSNum.num cfg.maxPaymentAmount).ltB amount then
    some ("Payment amount cannot exceed $" ++ toString cfg.maxPaymentAmount)
  else none

/-- `validateInvoiceAmount` from `src/utils/validation.ts`. -/
def validateInvoiceAmount (cfg : Config) (amount : ℚ) : Option String :=
  if cfg.maxInvoiceAmount < amount then
    some ("Invoice amount cannot exceed $" ++ toString cfg.maxInvoiceAmount)
  else none

/-- `validateLineItemAmount` from `src/utils/validation.ts`. -/
def validateLineItemAmount (cfg : Config) (amount : ℚ) : Option String :=
  if cfg.maxLineItemAmount < amount then
    some ("Line item amount cannot exceed $" ++ toString cfg.maxLineItemAmount)
  else none

/-- Throw-propagation: an error thrown by a validator aborts the
computation; otherwise the computation continues. -/
def orError {α : Type} (v : Option String) (k : Except String α) : Except String α :=
  match v with
  | some e => .error e
  | none => k

/-- Sequencing of fallible computations: an error propagates, a success
feeds its value to the continuation. -/
def andThen {α β : Type} (v : Except String β) (k : β → Except String α) : Except String α :=
  match v with
  | .error e => .error e
  | .ok b => k b

/-- Input for creating an invoice item (`InvoiceItemInput` in
`invoice.service.ts`). -/
structure InvoiceItemInput where
  description : String
  quantity : ℚ
  unitPrice : ℚ
deriving DecidableEq

/-- Calculated invoice totals (`InvoiceTotals` in `src/types`). -/
structure InvoiceTotals where
  subtotal : ℚ
  totalTax : ℚ
  totalAmount : ℚ
  items : List InvoiceItem
deriving DecidableEq

/-- The per-item body of `calculateInvoiceTotal`'s `map`: validates the item
fields, computes `lineSubtotal`, `taxAmount` and `lineTotal`, and assigns the
next generated id (`genId idx` models `generateId()`). -/
def processItem (cfg : Config) (genId : Nat → String) (idx : Nat)
    (item : InvoiceItemInput) (taxRate : ℚ) : Except String InvoiceItem :=
  orError (validateNonEmptyString item.description "Item description") <|
  orError (validatePositiveNumber (.num item.quantity) "Item quantity") <|
  orError (validateNonNegativeNumber (.num item.unitPrice) "Item unit price") <|
  orError (validateLineItemAmount cfg (roundToTwoDecimals (item.quantity * item.unitPrice))) <|
  .ok { id := genId idx, description := item.description,
        quantity := item.quantity, unitPrice := item.unitPrice,
        lineTotal := roundToTwoDecimals
          (roundToTwoDecimals (item.quantity * item.unitPrice) +
           calculateTaxAmount (roundToTwoDecimals (item.quantity * item.unitPrice)) taxRate),
        taxRate := taxRate,
        taxAmount := calculateTaxAmount
          (roundToTwoDecimals (item.quantity * item.unitPrice)) taxRate }

/-- The `items.map(...)` of `calculateInvoiceTotal`, with the first thrown
validation error propagated. -/
def processItems (cfg : Config) (genId : Nat → String) :
    Nat → List InvoiceItemInput → ℚ → Except String (List InvoiceItem)
  | _, [], _ => .ok []
  | idx, item :: rest, taxRate =>
    andThen (processItem cfg genId idx item taxRate) fun processed =>
    andThen (processItems cfg genId (idx + 1) rest taxRate) fun restProcessed =>
    .ok (processed :: restProcessed)

/-- `calculateInvoiceTotal` from `invoice.service.ts`.  The source's local
constants `subtotal`, `totalTax` and `totalAmount` are written out in
place. -/
def calculateInvoiceTotal (cfg : Config) (genId : Nat → String)
    (items : List InvoiceItemInput) (taxRate : ℚ) : Except String InvoiceTotals :=
  if items.isEmpty then .error "Invoice items cannot be empty"
  else
  orError (validateTaxRate taxRate) <|
  andThen (processItems cfg genId 0 items taxRate) fun processedItems =>
  orError (validateInvoiceAmount cfg (roundToTwoDecimals
      (sumWithRounding (processedItems.map fun item =>
         roundToTwoDecimals (item.quantity * item.unitPrice)) +
       sumWithRounding (processedItems.map fun item => item.taxAmount)))) <|
  .ok { subtotal := sumWithRounding (processedItems.map fun item =>
          roundToTwoDecimals (item.quantity * item.unitPrice)),
        totalTax := sumWithRounding (processedItems.map fun item => item.taxAmount),
        totalAmount := roundToTwoDecimals
          (sumWithRounding (processedItems.map fun item =>
             roundToTwoDecimals (item.quantity * item.unitPrice)) +
           sumWithRounding (processedItems.map fun item => item.taxAmount)),
        items := processedItems }

/-- `createInvoice` from `invoice.service.ts`.  `newId` and `invNumber`
model the strings supplied by the external generator collaborator. -/
def createInvoice (cfg : Config) (genId : Nat → String)
    (items : List InvoiceItemInput) (taxRate : ℚ) (invoiceDate : JSDate)
    (newId invNumber : String) : Except String Invoice :=
  match validateDate invoiceDate "Invoice date" with
  | some e => .error e
  | none =>
  match calculateInvoiceTotal cfg genId items taxRate with
  | .error e => .error e
  | .ok totals =>
    .ok { id := newId, invoiceNumber := invNumber, invoiceDate := invoiceDate,
          items := totals.items, subtotal := totals.subtotal,
          totalAmount := totals.totalAmount, totalTax := totals.totalTax,
          outstandingAmount := totals.totalAmount, status := .PENDING }

/-- `updateInvoiceStatus` from `invoice.service.ts`: derives the new status
from `outstandingAmount` versus `totalAmount` with the source's `if` chain. -/
def updateInvoiceStatus (invoice : Invoice) : Invoice :=
  { invoice with status :=
      if invoice.outstandingAmount > 0 ∧ invoice.outstandingAmount < invoice.totalAmount then
        .PARTIALLY_PAID
      else if invoice.outstandingAmount = 0 then .PAID
      else if invoice.outstandingAmount < 0 then .OVERPAID
      else .PENDING }

/-- `cloneInvoice` from `invoice.service.ts`: a field-by-field copy (the
date is rebuilt from its time value and each item is copied). -/
def cloneInvoice (invoice : Invoice) : Invoice :=
  { id := invoice.id, invoiceNumber := invoice.invoiceNumber,
    invoiceDate := { time := invoice.invoiceDate.time },
    items := invoice.items.map fun item =>
      { id := item.id, description := item.description,
        quantity := item.quantity, unitPrice := item.unitPrice,
        lineTotal := item.lineTotal, taxRate := item.taxRate,
        taxAmount := item.taxAmount },
    subtotal := invoice.subtotal, totalAmount := invoice.totalAmount,
    totalTax := invoice.totalTax,
    outstandingAmount := invoice.outstandingAmount, status := invoice.status }

/-- The first error thrown inside `processPayment`'s `try` block
(`payment.service.ts`): the validations in source order, then the
cancelled-invoice check.  `none` means the success path is taken. -/
def firstPaymentError (cfg : Config) (invoice : Invoice) (paymentAmount : JSNum)
    (paymentMethod : String) (paymentDate : JSDate) : Option String :=
  match validatePositiveNumber paymentAmount "Payment amount" with
  | some e => some e
  | none =>
  match validatePaymentAmountLimits cfg paymentAmount with
  | some e => some e
  | none =>
  match validatePaymentMethod paymentMethod with
  | some e => some e
  | none =>
  match validateDate paymentDate "Payment date" with
  | some e => some e
  | none =>
  match validateNonEmptyString invoice.id "Invoice ID" with
  | some e => some e
  | none =>
  if invoice.status = InvoiceStatus.CANCELLED then
    some "Cannot process payment for a cancelled invoice"
  else none

/-- `processPayment` from `payment.service.ts`.  `newId` and `refNumber`
model `generateId()` and `generatePaymentReference(paymentDate)`; the
`try`/`catch` is modelled by branching on the first thrown error. -/
def processPayment (cfg : Config) (invoice : Invoice) (paymentAmount : JSNum)
    (paymentMethod : String) (paymentDate : JSDate)
    (newId refNumber : String) : PaymentResult :=
  match firstPaymentError cfg invoice paymentAmount paymentMethod paymentDate with
  | some msg =>
    { success := false
      payment := { id := newId, invoiceId := invoice.id,
                   paymentMethod := paymentMethod, amount := paymentAmount,
                   paymentDate := paymentDate, referenceNumber := refNumber,
                   status := .FAILED }
      invoice := invoice
      error := some msg }
  | none =>
    let payment : Payment :=
      { id := newId, invoiceId := invoice.id, paymentMethod := paymentMethod,
        amount := paymentAmount, paymentDate := paymentDate,
        referenceNumber := refNumber, status := .COMPLETED }
    let updatedInvoice :=
      { cloneInvoice invoice with
        outstandingAmount :=
          roundToTwoDecimals (invoice.outstandingAmount - paymentAmount.toRat) }
    let finalInvoice := updateInvoiceStatus updatedInvoice
    { success := true, payment := payment, invoice := finalInvoice, error := none }

/-- `allocatePaymentToItems` from `receipt.service.ts`: full `lineTotal`
allocation when the payment covers the invoice, proportional allocation with
remainder correction on the last item otherwise.  `items.map((item, index))`
is modelled by mapping over `items.enum`, and `slice(0, index)` by
`take`. -/
def allocatePaymentToItems (paymentAmount : ℚ) (invoice : Invoice) : List ReceiptItem :=
  if invoice.totalAmount ≤ paymentAmount then
    invoice.items.map fun item =>
      { description := item.description, amountAllocated := item.lineTotal }
  else
    let r := paymentAmount / invoice.totalAmount
    invoice.items.enum.map fun p =>
      if p.1 = invoice.items.length - 1 then
        let previousAllocations :=
          ((invoice.items.take p.1).map fun prevItem =>
            roundToTwoDecimals (prevItem.lineTotal * r)).sum
        { description := p.2.description
          amountAllocated := roundToTwoDecimals (paymentAmount - previousAllocations) }
      else
        { description := p.2.description
          amountAllocated := roundToTwoDecimals (p.2.lineTotal * r) }

/-- `generateReceipt` from `receipt.service.ts`.  `newId` and `rcptNumber`
model the generated id and receipt number; thrown validation errors
propagate as `Except.error`. -/
def generateReceipt (payment : Payment) (invoice : Invoice)
    (newId rcptNumber : String) : Except String Receipt :=
  match validateNonEmptyString payment.id "Payment ID" with
  | some e => .error e
  | none =>
  match validateNonEmptyString invoice.id "Invoice ID" with
  | some e => .error e
  | none =>
  match validateDate payment.paymentDate "Payment date" with
  | some e => .error e
  | none =>
  if payment.invoiceId ≠ invoice.id then
    .error "Payment invoice ID does not match provided invoice"
  else
    .ok { id := newId, paymentId := payment.id, invoiceId := invoice.id,
          receiptNumber := rcptNumber, receiptDate := payment.paymentDate,
          totalPaid := payment.amount,
          remainingBalance := invoice.outstandingAmount,
          paymentMethod := payment.paymentMethod,
          paymentReference := payment.referenceNumber,
          items := allocatePaymentToItems payment.amount.toRat invoice }

/-- A value is a whole number of cents. -/
def IsCentMultiple (x : ℚ) : Prop :=
  ∃ k : ℤ, x = (k : ℚ) / 100

/-- A sample invoice item with line total 100 (no tax). -/
def sampleItemA : InvoiceItem :=
  { id := "i1", description := "Item 1", quantity := 1, unitPrice := 100,
    lineTotal := 100, taxRate := 0, taxAmount := 0 }

/-- A sample invoice item with line total 200 (no tax). -/
def sampleItemB : InvoiceItem :=
  { id := "i2", description := "Item 2", quantity := 1, unitPrice := 200,
    lineTotal := 200, taxRate := 0, taxAmount := 0 }

/-- A sample pending invoice over the two sample items, total 300. -/
def sampleInvoice : Invoice :=
  { id := "inv-1", invoiceNumber := "INV-1", invoiceDate := { time := .num 0 },
    items := [sampleItemA, sampleItemB], subtotal := 300, totalAmount := 300,
    totalTax := 0, outstandingAmount := 300, status := .PENDING }

/-- The sample invoice, cancelled. -/
def sampleCancelledInvoice : Invoice :=
  { sampleInvoice with status := .CANCELLED }

/-- The item inputs of the spec's worked scenario: one Monthly Fee at
500.00 and two Activity Fees at 25.50 each. -/
def demoItems : List InvoiceItemInput :=
  [⟨"Monthly Fee", 1, 500⟩, ⟨"Activity Fee", 2, 51 / 2⟩]

end Billing

namespace Billing

/-! ### Rounding lemmas -/

/-- Every output of `roundToTwoDecimals` is a whole number of cents. -/
theorem roundToTwoDecimals_isCent (x : ℚ) : IsCentMultiple (roundToTwoDecimals x) :=
  ⟨⌊x * 100 + 1 / 2⌋, rfl⟩

/-- `roundToTwoDecimals` fixes every whole number of cents. -/
theorem roundToTwoDecimals_eq_self {x : ℚ} (h : IsCentMultiple x) :
    roundToTwoDecimals x = x := by
  obtain ⟨k, rfl⟩ := h
  unfold roundToTwoDecimals jsRound
  have h1 : (k : ℚ) / 100 * 100 = (k : ℚ) := by field_simp
  rw [h1]
  have h2 : ⌊(k : ℚ) + 1 / 2⌋ = k := by
    rw [add_comm, Int.floor_add_int]
    norm_num
  rw [h2]

theorem IsCentMultiple.add {x y : ℚ} (hx : IsCentMultiple x) (hy : IsCentMultiple y) :
    IsCentMultiple (x + y) := by
  obtain ⟨k, rfl⟩ := hx
  obtain ⟨m, rfl⟩ := hy
  exact ⟨k + m, by push_cast; ring⟩

theorem IsCentMultiple.sub {x y : ℚ} (hx : IsCentMultiple x) (hy : IsCentMultiple y) :
    IsCentMultiple (x - y) := by
  obtain ⟨k, rfl⟩ := hx
  obtain ⟨m, rfl⟩ := hy
  exact ⟨k - m, by push_cast; ring⟩

/-- A sum of whole-cent values is a whole-cent value. -/
theorem isCent_sum {l : List ℚ} (h : ∀ x ∈ l, IsCentMultiple x) :
    IsCentMultiple l.sum := by
  induction l with
  | nil => exact ⟨0, by norm_num⟩
  | cons a l ih =>
    rw [List.sum_cons]
    exact (h a (List.mem_cons_self a l)).add (ih fun x hx => h x (List.mem_cons_of_mem a hx))

/-! ### C7: rounding direction -/

/-- C7 counterexample: the claim says `roundCurrency` rounds ties away from
zero, so that `roundCurrency(-0.005) = -0.01`; the code's
`Math.round(x*100)/100` rounds the tie `-0.5` up to `0`, giving `0`. -/
theorem c7_counterexample_neg_half_cent :
    roundToTwoDecimals (-(1 / 200)) = 0 ∧ (0 : ℚ) ≠ -(1 / 100) := by
  constructor
  · norm_num [roundToTwoDecimals, jsRound]
  · norm_num

/-- C7 (amended): `roundCurrency(x) = ⌊x*100 + 1/2⌋ / 100`, the nearest
whole-cent value with ties rounded toward positive infinity (round half up):
the result is a whole number of cents `k/100` with
`-1/200 ≤ x - k/100 < 1/200`; positive half-cent ties round up
(`0.005 ↦ 0.01`), and negative half-cent ties round toward zero
(`-0.005 ↦ 0`), not away from zero. -/
theorem c7_roundCurrency_half_up (x : ℚ) :
    (∃ k : ℤ, roundToTwoDecimals x = (k : ℚ) / 100 ∧
      -(1 / 200) ≤ x - (k : ℚ) / 100 ∧ x - (k : ℚ) / 100 < 1 / 200) ∧
    roundToTwoDecimals (1 / 200) = 1 / 100 ∧
    roundToTwoDecimals (-(1 / 200)) = 0 := by
  refine ⟨⟨⌊x * 100 + 1 / 2⌋, rfl, ?_, ?_⟩, ?_, ?_⟩
  · have h := Int.floor_le (x * 100 + 1 / 2)
    linarith
  · have h := Int.lt_floor_add_one (x * 100 + 1 / 2)
    linarith
  · norm_num [roundToTwoDecimals, jsRound]
  · norm_num [roundToTwoDecimals, jsRound]

/-! ### C4 and C10: status derivation -/

/-- C4: `updateInvoiceStatus` derives PARTIALLY_PAID exactly when
`0 < outstanding < total`, PAID exactly when `outstanding = 0`, OVERPAID
exactly when `outstanding < 0`, PENDING in the remaining case (in which
`outstanding ≥ total` holds), and never CANCELLED. -/
theorem c4_status_derivation (invoice : Invoice) :
    ((updateInvoiceStatus invoice).status = .PARTIALLY_PAID ↔
      0 < invoice.outstandingAmount ∧ invoice.outstandingAmount < invoice.totalAmount) ∧
    ((updateInvoiceStatus invoice).status = .PAID ↔ invoice.outstandingAmount = 0) ∧
    ((updateInvoiceStatus invoice).status = .OVERPAID ↔ invoice.outstandingAmount < 0) ∧
    ((updateInvoiceStatus invoice).status = .PENDING ↔
      0 < invoice.outstandingAmount ∧ invoice.totalAmount ≤ invoice.outstandingAmount) ∧
    (updateInvoiceStatus invoice).status ≠ .CANCELLED := by
  simp only [updateInvoiceStatus, gt_iff_lt]
  split_ifs with h1 h2 h3
  · obtain ⟨ho, ht⟩ := h1
    exact ⟨⟨fun _ => ⟨ho, ht⟩, fun _ => rfl⟩,
      ⟨fun h => absurd h (by decide), fun h0 => absurd ho (by simp [h0])⟩,
      ⟨fun h => absurd h (by decide), fun hn => absurd hn (lt_asymm ho)⟩,
      ⟨fun h => absurd h (by decide), fun hp => absurd ht (not_lt.mpr hp.2)⟩,
      by decide⟩
  · exact ⟨⟨fun h => absurd h (by decide), fun hp => absurd hp.1 (by simp [h2])⟩,
      ⟨fun _ => h2, fun _ => rfl⟩,
      ⟨fun h => absurd h (by decide), fun hn => absurd hn (by simp [h2])⟩,
      ⟨fun h => absurd h (by decide), fun hp => absurd hp.1 (by simp [h2])⟩,
      by decide⟩
  · exact ⟨⟨fun h => absurd h (by decide), fun hp => absurd hp.1 (lt_asymm h3)⟩,
      ⟨fun h => absurd h (by decide), fun h0 => absurd h3 (by simp [h0])⟩,
      ⟨fun _ => h3, fun _ => rfl⟩,
      ⟨fun h => absurd h (by decide), fun hp => absurd hp.1 (lt_asymm h3)⟩,
      by decide⟩
  · have ho : 0 < invoice.outstandingAmount :=
      lt_of_le_of_ne (not_lt.mp h3) (Ne.symm h2)
    have ht : invoice.totalAmount ≤ invoice.outstandingAmount :=
      not_lt.mp fun hlt => h1 ⟨ho, hlt⟩
    exact ⟨⟨fun h => absurd h (by decide), fun hp => (h1 hp).elim⟩,
      ⟨fun h => absurd h (by decide), fun h0 => absurd h0 h2⟩,
      ⟨fun h => absurd h (by decide), fun hn => absurd hn h3⟩,
      ⟨fun _ => ⟨ho, ht⟩, fun _ => rfl⟩,
      by decide⟩

/-- C10: `updateInvoiceStatus` ignores the incoming status entirely — on a
CANCELLED invoice it returns the invoice with the status re-derived from
`outstandingAmount` versus `totalAmount` (the same result as for the invoice
with any other status), so CANCELLED is not preserved by this function: the
result is PENDING when `outstandingAmount = totalAmount > 0` and PAID when
`outstandingAmount = 0`. -/
theorem c10_updateInvoiceStatus_ignores_cancelled (invoice : Invoice)
    (hc : invoice.status = .CANCELLED) :
    updateInvoiceStatus invoice = updateInvoiceStatus { invoice with status := .PENDING } ∧
    (updateInvoiceStatus invoice).status ≠ .CANCELLED ∧
    (invoice.outstandingAmount = invoice.totalAmount → 0 < invoice.outstandingAmount →
      (updateInvoiceStatus invoice).status = .PENDING) ∧
    (invoice.outstandingAmount = 0 → (updateInvoiceStatus invoice).status = .PAID) := by
  refine ⟨rfl, ?_, ?_, ?_⟩
  · simp only [updateInvoiceStatus]
    split_ifs <;> simp
  · intro heq hpos
    simp only [updateInvoiceStatus, gt_iff_lt]
    split_ifs with h1 h2 h3
    · exact absurd h1.2 (by simp [heq])
    · exact absurd hpos (by simp [h2])
    · exact absurd h3 (lt_asymm hpos)
    · rfl
  · intro h0
    simp [updateInvoiceStatus, h0]

/-- Witness for C10 at a concrete cancelled invoice with
`outstandingAmount = totalAmount = 300`. -/
theorem c10_witness :
    sampleCancelledInvoice.status = .CANCELLED ∧
    (updateInvoiceStatus sampleCancelledInvoice).status = .PENDING :=
  ⟨rfl, (c10_updateInvoiceStatus_ignores_cancelled sampleCancelledInvoice rfl).2.2.1
    rfl (by norm_num [sampleCancelledInvoice, sampleInvoice])⟩

/-! ### C9: full and over payment allocation -/

/-- C9: when `amount ≥ invoice.totalAmount`, allocation returns each item's
`lineTotal` verbatim, in the invoice's item order, and the sum of the
allocations is the sum of the line totals — independent of the payment
amount, so an excess of `amount` over the allocations is not corrected. -/
theorem c9_full_payment_allocation (invoice : Invoice) (amount : ℚ)
    (h : invoice.totalAmount ≤ amount) :
    allocatePaymentToItems amount invoice =
      invoice.items.map
        (fun item => { description := item.description, amountAllocated := item.lineTotal }) ∧
    ((allocatePaymentToItems amount invoice).map (fun ri => ri.amountAllocated)).sum =
      (invoice.items.map (fun item => item.lineTotal)).sum := by
  have e : allocatePaymentToItems amount invoice =
      invoice.items.map
        (fun item => { description := item.description, amountAllocated := item.lineTotal }) := by
    simp only [allocatePaymentToItems, if_pos h]
  refine ⟨e, ?_⟩
  rw [e, List.map_map]
  rfl

/-- Witness for C9: an overpayment of 350 against the sample invoice of
total 300 allocates the full line totals 100 and 200, whose sum 300 differs
from the payment amount 350. -/
theorem c9_witness :
    sampleInvoice.totalAmount ≤ (350 : ℚ) ∧
    (allocatePaymentToItems 350 sampleInvoice =
      sampleInvoice.items.map
        (fun item => { description := item.description, amountAllocated := item.lineTotal }) ∧
     ((allocatePaymentToItems 350 sampleInvoice).map (fun ri => ri.amountAllocated)).sum =
      (sampleInvoice.items.map (fun item => item.lineTotal)).sum) ∧
    (sampleInvoice.items.map (fun item => item.lineTotal)).sum ≠ (350 : ℚ) :=
  ⟨by norm_num [sampleInvoice],
   c9_full_payment_allocation sampleInvoice 350 (by norm_num [sampleInvoice]),
   by norm_num [sampleInvoice, sampleItemA, sampleItemB]⟩

/-! ### C1: partial payment allocation -/

/-- Appending one element to the enumerated list appends its indexed pair. -/
theorem enumFrom_append_singleton {α : Type} (a : α) (l : List α) (n : ℕ) :
    (l ++ [a]).enumFrom n = l.enumFrom n ++ [(n + l.length, a)] := by
  induction l generalizing n with
  | nil => simp
  | cons x xs ih =>
    have hn : n + 1 + xs.length = n + (xs.length + 1) := by omega
    simp only [List.cons_append, List.enumFrom, List.length_cons]
    rw [show (xs.append [a]) = xs ++ [a] from rfl, ih (n + 1), hn]

/-- Mapping an index-dependent function over an enumerated list agrees with a
plain map when the function is index-independent on the index range. -/
theorem map_enumFrom_eq_map {α β : Type} (f : ℕ × α → β) (g : α → β) :
    ∀ (l : List α) (n : ℕ), (∀ i b, i < n + l.length → f (i, b) = g b) →
      (l.enumFrom n).map f = l.map g := by
  intro l
  induction l with
  | nil => intro n _; rfl
  | cons x xs ih =>
    intro n h
    simp only [List.enumFrom, List.map_cons]
    rw [h n x (by simp), ih (n + 1) fun i b hi => h i b (by simp at hi ⊢; omega)]

/-- Shape of a partial allocation: the non-last items get the proportional
rounded share, the last item gets the rounded remainder. -/
theorem allocatePaymentToItems_prorated (invoice : Invoice) (amount : ℚ)
    (hne : invoice.items ≠ []) (hlt : amount < invoice.totalAmount) :
    allocatePaymentToItems amount invoice =
      invoice.items.dropLast.map (fun item =>
        { description := item.description,
          amountAllocated :=
            roundToTwoDecimals (item.lineTotal * (amount / invoice.totalAmount)) }) ++
      [{ description := (invoice.items.getLast hne).description,
         amountAllocated := roundToTwoDecimals (amount -
           (invoice.items.dropLast.map (fun item =>
             roundToTwoDecimals (item.lineTotal * (amount / invoice.totalAmount)))).sum) }] := by
  have hsplit := List.dropLast_append_getLast hne
  set L := invoice.items.dropLast with hL
  set a := invoice.items.getLast hne with ha
  unfold allocatePaymentToItems
  rw [if_neg (not_le.mpr hlt)]
  rw [← hsplit]
  rw [show (L ++ [a]).enum = (L ++ [a]).enumFrom 0 from rfl]
  rw [enumFrom_append_singleton, List.map_append, List.map_singleton]
  have hlen : (L ++ [a]).length - 1 = L.length := by simp
  congr 1
  · apply map_enumFrom_eq_map
    intro i b hi
    simp only [Nat.zero_add] at hi
    have : ¬ (i = (L ++ [a]).length - 1) := by rw [hlen]; omega
    rw [if_neg this]
  · rw [if_pos (by rw [hlen]; omega)]
    rw [show (0 + L.length : ℕ) = L.length from by omega]
    rw [show ((L ++ [a]).take L.length) = L from List.take_left L [a]]

/-- The allocations of a partial payment sum exactly to the payment amount
when the payment amount is a whole number of cents. -/
theorem allocatePaymentToItems_prorated_sum (invoice : Invoice) (amount : ℚ)
    (hne : invoice.items ≠ []) (hlt : amount < invoice.totalAmount)
    (hcent : IsCentMultiple amount) :
    ((allocatePaymentToItems amount invoice).map (fun ri => ri.amountAllocated)).sum = amount := by
  have he := allocatePaymentToItems_prorated invoice amount hne hlt
  rw [he, List.map_append, List.sum_append, List.map_map, List.map_singleton, List.sum_singleton]
  have hcomp : ((fun ri => ri.amountAllocated) ∘ (fun item : InvoiceItem =>
      ({ description := item.description,
         amountAllocated :=
           roundToTwoDecimals (item.lineTotal * (amount / invoice.totalAmount)) } : ReceiptItem))) =
      fun item => roundToTwoDecimals (item.lineTotal * (amount / invoice.totalAmount)) := rfl
  rw [hcomp]
  have hPc : IsCentMultiple (invoice.items.dropLast.map (fun item =>
      roundToTwoDecimals (item.lineTotal * (amount / invoice.totalAmount)))).sum := by
    apply isCent_sum
    intro x hx
    simp only [List.mem_map] at hx
    obtain ⟨item, _, rfl⟩ := hx
    exact roundToTwoDecimals_isCent _
  rw [roundToTwoDecimals_eq_self (hcent.sub hPc)]
  ring

/-- C1 counterexample: the claim promises `sum(allocated) = amount` for
every `0 < amount < totalAmount`, but at the non-whole-cent amount
50.005 against the sample invoice (line totals 100 and 200, total 300) the
allocations are 16.67 and 33.34, summing to 50.01 ≠ 50.005. -/
theorem c1_counterexample :
    sampleInvoice.items ≠ [] ∧ (0 : ℚ) < 10001 / 200 ∧
    (10001 / 200 : ℚ) < sampleInvoice.totalAmount ∧
    ((allocatePaymentToItems (10001 / 200) sampleInvoice).map
      (fun ri => ri.amountAllocated)).sum ≠ 10001 / 200 := by
  refine ⟨by simp [sampleInvoice], by norm_num, by norm_num [sampleInvoice], ?_⟩
  norm_num [allocatePaymentToItems, sampleInvoice, sampleItemA, sampleItemB,
    roundToTwoDecimals, jsRound, List.enum, List.enumFrom]

/-- C1 (amended): for a non-empty item list, `0 < amount < totalAmount`,
and a payment amount that is a whole number of cents, allocation assigns
each item except the last `roundCurrency(lineTotal * amount / totalAmount)`,
assigns the last item `roundCurrency(amount - sum of previous allocations)`,
and the sum of all allocations equals the payment amount exactly. -/
theorem c1_prorated_allocation_exact (invoice : Invoice) (amount : ℚ)
    (hne : invoice.items ≠ []) (hpos : 0 < amount)
    (hlt : amount < invoice.totalAmount) (hcent : IsCentMultiple amount) :
    allocatePaymentToItems amount invoice =
      invoice.items.dropLast.map (fun item =>
        { description := item.description,
          amountAllocated :=
            roundToTwoDecimals (item.lineTotal * (amount / invoice.totalAmount)) }) ++
      [{ description := (invoice.items.getLast hne).description,
         amountAllocated := roundToTwoDecimals (amount -
           (invoice.items.dropLast.map (fun item =>
             roundToTwoDecimals (item.lineTotal * (amount / invoice.totalAmount)))).sum) }] ∧
    ((allocatePaymentToItems amount invoice).map (fun ri => ri.amountAllocated)).sum = amount :=
  ⟨allocatePaymentToItems_prorated invoice amount hne hlt,
   allocatePaymentToItems_prorated_sum invoice amount hne hlt hcent⟩

/-- Witness for C1 at the whole-cent partial payment 150 against the
sample invoice of total 300: allocations sum to exactly 150. -/
theorem c1_witness :
    sampleInvoice.items ≠ [] ∧ (0 : ℚ) < 150 ∧
    (150 : ℚ) < sampleInvoice.totalAmount ∧ IsCentMultiple 150 ∧
    ((allocatePaymentToItems 150 sampleInvoice).map
      (fun ri => ri.amountAllocated)).sum = 150 := by
  have hne : sampleInvoice.items ≠ [] := by simp [sampleInvoice]
  have hcent : IsCentMultiple (150 : ℚ) := ⟨15000, by norm_num⟩
  refine ⟨hne, by norm_num, by norm_num [sampleInvoice], hcent, ?_⟩
  exact (c1_prorated_allocation_exact sampleInvoice 150 hne (by norm_num)
    (by norm_num [sampleInvoice]) hcent).2

/-! ### Validator lemmas for the payment path -/

theorem append_ne_empty_of_right (a b : String) (hb : b ≠ "") : a ++ b ≠ "" := by
  intro h
  apply hb
  have hd : (a ++ b).data = ("" : String).data := congrArg String.data h
  simp at hd
  exact String.ext hd.2

theorem append_ne_empty_of_left (a b : String) (ha : a ≠ "") : a ++ b ≠ "" := by
  intro h
  apply ha
  have hd : (a ++ b).data = ("" : String).data := congrArg String.data h
  simp at hd
  exact String.ext hd.1

theorem validatePositiveNumber_eq_none_iff {v : JSNum} {fld : String} :
    validatePositiveNumber v fld = none ↔
      v.isNaN = false ∧ v.leB (.num 0) = false ∧ v.isFinite = true := by
  unfold validatePositiveNumber
  split_ifs <;> simp_all

theorem validatePaymentAmountLimits_eq_none_iff {cfg : Config} {v : JSNum} :
    validatePaymentAmountLimits cfg v = none ↔
      v.ltB (.num cfg.minPaymentAmount) = false ∧
      (JSNum.num cfg.maxPaymentAmount).ltB v = false := by
  unfold validatePaymentAmountLimits
  split_ifs <;> simp_all

theorem validatePaymentMethod_eq_none_iff {m : String} :
    validatePaymentMethod m = none ↔ m ∈ validPaymentMethods := by
  unfold validatePaymentMethod
  split_ifs <;> simp_all

theorem validateDate_eq_none_iff {d : JSDate} {fld : String} :
    validateDate d fld = none ↔ d.time.isNaN = false := by
  unfold validateDate
  split_ifs <;> simp_all

theorem validateNonEmptyString_eq_none_iff {s fld : String} :
    validateNonEmptyString s fld = none ↔ s.data.all Char.isWhitespace = false := by
  unfold validateNonEmptyString
  split_ifs <;> simp_all

/-- `processPayment` takes the success path exactly when all five
validations pass and the invoice is not cancelled. -/
theorem firstPaymentError_eq_none_iff (cfg : Config) (invoice : Invoice)
    (amt : JSNum) (mth : String) (dt : JSDate) :
    firstPaymentError cfg invoice amt mth dt = none ↔
      (validatePositiveNumber amt "Payment amount" = none ∧
       validatePaymentAmountLimits cfg amt = none ∧
       validatePaymentMethod mth = none ∧
       validateDate dt "Payment date" = none ∧
       validateNonEmptyString invoice.id "Invoice ID" = none ∧
       invoice.status ≠ .CANCELLED) := by
  unfold firstPaymentError
  cases h1 : validatePositiveNumber amt "Payment amount" with
  | some e => simp [h1]
  | none =>
  cases h2 : validatePaymentAmountLimits cfg amt with
  | some e => simp [h2]
  | none =>
  cases h3 : validatePaymentMethod mth with
  | some e => simp [h3]
  | none =>
  cases h4 : validateDate dt "Payment date" with
  | some e => simp [h4]
  | none =>
  cases h5 : validateNonEmptyString invoice.id "Invoice ID" with
  | some e => simp [h5]
  | none =>
  split_ifs with h6 <;> simp_all

theorem validatePositiveNumber_some_ne_empty {v : JSNum} {fld e : String}
    (h : validatePositiveNumber v fld = some e) : e ≠ "" := by
  unfold validatePositiveNumber at h
  split_ifs at h <;>
    first
      | exact Option.noConfusion h
      | (rw [← Option.some.inj h]; exact append_ne_empty_of_right _ _ (by decide))

theorem validatePaymentAmountLimits_some_ne_empty {cfg : Config} {v : JSNum} {e : String}
    (h : validatePaymentAmountLimits cfg v = some e) : e ≠ "" := by
  unfold validatePaymentAmountLimits at h
  split_ifs at h <;>
    first
      | exact Option.noConfusion h
      | (rw [← Option.some.inj h]; exact append_ne_empty_of_left _ _ (by decide))

theorem validatePaymentMethod_some_ne_empty {m e : String}
    (h : validatePaymentMethod m = some e) : e ≠ "" := by
  unfold validatePaymentMethod at h
  split_ifs at h <;>
    first
      | exact Option.noConfusion h
      | (rw [← Option.some.inj h]; decide)

theorem validateDate_some_ne_empty {d : JSDate} {fld e : String}
    (h : validateDate d fld = some e) : e ≠ "" := by
  unfold validateDate at h
  split_ifs at h <;>
    first
      | exact Option.noConfusion h
      | (rw [← Option.some.inj h]; exact append_ne_empty_of_right _ _ (by decide))

theorem validateNonEmptyString_some_ne_empty {s fld e : String}
    (h : validateNonEmptyString s fld = some e) : e ≠ "" := by
  unfold validateNonEmptyString at h
  split_ifs at h <;>
    first
      | exact Option.noConfusion h
      | (rw [← Option.some.inj h]; exact append_ne_empty_of_right _ _ (by decide))

/-- Every error message produced inside `processPayment` is non-empty. -/
theorem firstPaymentError_some_ne_empty {cfg : Config} {invoice : Invoice}
    {amt : JSNum} {mth : String} {dt : JSDate} {msg : String}
    (h : firstPaymentError cfg invoice amt mth dt = some msg) : msg ≠ "" := by
  unfold firstPaymentError at h
  cases h1 : validatePositiveNumber amt "Payment amount" with
  | some e =>
    rw [h1] at h
    exact Option.some.inj h ▸ validatePositiveNumber_some_ne_empty h1
  | none =>
  rw [h1] at h
  cases h2 : validatePaymentAmountLimits cfg amt with
  | some e =>
    rw [h2] at h
    exact Option.some.inj h ▸ validatePaymentAmountLimits_some_ne_empty h2
  | none =>
  rw [h2] at h
  cases h3 : validatePaymentMethod mth with
  | some e =>
    rw [h3] at h
    exact Option.some.inj h ▸ validatePaymentMethod_some_ne_empty h3
  | none =>
  rw [h3] at h
  cases h4 : validateDate dt "Payment date" with
  | some e =>
    rw [h4] at h
    exact Option.some.inj h ▸ validateDate_some_ne_empty h4
  | none =>
  rw [h4] at h
  cases h5 : validateNonEmptyString invoice.id "Invoice ID" with
  | some e =>
    rw [h5] at h
    exact Option.some.inj h ▸ validateNonEmptyString_some_ne_empty h5
  | none =>
  rw [h5] at h
  split_ifs at h <;>
    first
      | exact Option.noConfusion h
      | (rw [← Option.some.inj h]; decide)

/-- `cloneInvoice` is the identity on invoice values. -/
theorem cloneInvoice_eq (invoice : Invoice) : cloneInvoice invoice = invoice := by
  unfold cloneInvoice
  have hitems : invoice.items.map (fun item : InvoiceItem =>
      ({ id := item.id, description := item.description,
         quantity := item.quantity, unitPrice := item.unitPrice,
         lineTotal := item.lineTotal, taxRate := item.taxRate,
         taxAmount := item.taxAmount } : InvoiceItem)) = invoice.items := by
    have hid : (fun item : InvoiceItem =>
        ({ id := item.id, description := item.description,
           quantity := item.quantity, unitPrice := item.unitPrice,
           lineTotal := item.lineTotal, taxRate := item.taxRate,
           taxAmount := item.taxAmount } : InvoiceItem)) = id := rfl
    rw [hid, List.map_id]
  rw [hitems]

/-! ### C2, C3 and C5: payment processing -/

/-- C2: when the invoice is not cancelled and the payment input passes every
validation (finite positive amount within the configured limits, recognized
method, valid date, non-empty invoice id), `processPayment` succeeds with a
COMPLETED payment carrying the amount, the new outstanding amount is
`roundCurrency(outstanding - amount)`, and the new status is derived from
the new outstanding amount by `updateInvoiceStatus`. -/
theorem c2_processPayment_success (cfg : Config) (invoice : Invoice) (a : ℚ)
    (mth : String) (dt : JSDate) (newId refNumber : String)
    (hstat : invoice.status ≠ .CANCELLED) (hpos : 0 < a)
    (hmin : cfg.minPaymentAmount ≤ a) (hmax : a ≤ cfg.maxPaymentAmount)
    (hmth : mth ∈ validPaymentMethods) (hdt : dt.time.isNaN = false)
    (hid : invoice.id.data.all Char.isWhitespace = false) :
    (processPayment cfg invoice (.num a) mth dt newId refNumber).success = true ∧
    (processPayment cfg invoice (.num a) mth dt newId refNumber).payment =
      { id := newId, invoiceId := invoice.id, paymentMethod := mth,
        amount := .num a, paymentDate := dt, referenceNumber := refNumber,
        status := .COMPLETED } ∧
    (processPayment cfg invoice (.num a) mth dt newId refNumber).invoice.outstandingAmount =
      roundToTwoDecimals (invoice.outstandingAmount - a) ∧
    (processPayment cfg invoice (.num a) mth dt newId refNumber).invoice.status =
      (updateInvoiceStatus { invoice with
        outstandingAmount := roundToTwoDecimals (invoice.outstandingAmount - a) }).status := by
  have hfpe : firstPaymentError cfg invoice (.num a) mth dt = none := by
    rw [firstPaymentError_eq_none_iff]
    refine ⟨?_, ?_, ?_, ?_, ?_, hstat⟩
    · rw [validatePositiveNumber_eq_none_iff]
      refine ⟨rfl, ?_, rfl⟩
      simp [JSNum.leB, hpos.not_le]
    · rw [validatePaymentAmountLimits_eq_none_iff]
      constructor
      · simp [JSNum.ltB, not_lt.mpr hmin]
      · simp [JSNum.ltB, not_lt.mpr hmax]
    · rw [validatePaymentMethod_eq_none_iff]; exact hmth
    · rw [validateDate_eq_none_iff]; exact hdt
    · rw [validateNonEmptyString_eq_none_iff]; exact hid
  refine ⟨?_, ?_, ?_, ?_⟩ <;>
    simp [processPayment, hfpe, cloneInvoice_eq, updateInvoiceStatus, JSNum.toRat]

/-- Witness for C2: a cash payment of 50 against the sample pending
invoice under the default configuration. -/
theorem c2_witness :
    (processPayment defaultConfig sampleInvoice (.num 50) "CASH"
      { time := .num 0 } "p1" "r1").success = true ∧
    (processPayment defaultConfig sampleInvoice (.num 50) "CASH"
      { time := .num 0 } "p1" "r1").payment =
      { id := "p1", invoiceId := sampleInvoice.id, paymentMethod := "CASH",
        amount := .num 50, paymentDate := { time := .num 0 },
        referenceNumber := "r1", status := .COMPLETED } ∧
    (processPayment defaultConfig sampleInvoice (.num 50) "CASH"
      { time := .num 0 } "p1" "r1").invoice.outstandingAmount =
      roundToTwoDecimals (sampleInvoice.outstandingAmount - 50) ∧
    (processPayment defaultConfig sampleInvoice (.num 50) "CASH"
      { time := .num 0 } "p1" "r1").invoice.status =
      (updateInvoiceStatus { sampleInvoice with
        outstandingAmount :=
          roundToTwoDecimals (sampleInvoice.outstandingAmount - 50) }).status :=
  c2_processPayment_success defaultConfig sampleInvoice 50 "CASH"
    { time := .num 0 } "p1" "r1" (by decide) (by norm_num)
    (by norm_num [defaultConfig]) (by norm_num [defaultConfig])
    (by decide) rfl (by decide)

/-- C3: on any validation failure (non-positive or NaN or non-finite
amount, amount outside the configured limits, unrecognized method, invalid
date, blank invoice id) or a cancelled invoice, `processPayment` returns
`success = false`, a FAILED payment record, a non-empty error message, and
the original invoice unchanged — it never throws. -/
theorem c3_processPayment_failure (cfg : Config) (invoice : Invoice) (amt : JSNum)
    (mth : String) (dt : JSDate) (newId refNumber : String)
    (h : amt.isNaN = true ∨ amt.leB (.num 0) = true ∨ amt.isFinite = false ∨
         amt.ltB (.num cfg.minPaymentAmount) = true ∨
         (JSNum.num cfg.maxPaymentAmount).ltB amt = true ∨
         mth ∉ validPaymentMethods ∨ dt.time.isNaN = true ∨
         invoice.id.data.all Char.isWhitespace = true ∨ invoice.status = .CANCELLED) :
    (processPayment cfg invoice amt mth dt newId refNumber).success = false ∧
    (processPayment cfg invoice amt mth dt newId refNumber).payment =
      { id := newId, invoiceId := invoice.id, paymentMethod := mth,
        amount := amt, paymentDate := dt, referenceNumber := refNumber,
        status := .FAILED } ∧
    (processPayment cfg invoice amt mth dt newId refNumber).invoice = invoice ∧
    ∃ msg, (processPayment cfg invoice amt mth dt newId refNumber).error = some msg ∧
      msg ≠ "" := by
  have hne : firstPaymentError cfg invoice amt mth dt ≠ none := by
    rw [Ne, firstPaymentError_eq_none_iff]
    rintro ⟨h1, h2, h3, h4, h5, h6⟩
    rw [validatePositiveNumber_eq_none_iff] at h1
    rw [validatePaymentAmountLimits_eq_none_iff] at h2
    rw [validatePaymentMethod_eq_none_iff] at h3
    rw [validateDate_eq_none_iff] at h4
    rw [validateNonEmptyString_eq_none_iff] at h5
    rcases h with hh|hh|hh|hh|hh|hh|hh|hh|hh <;> simp_all
  obtain ⟨msg, hmsg⟩ := Option.ne_none_iff_exists'.mp hne
  refine ⟨?_, ?_, ?_, msg, ?_, firstPaymentError_some_ne_empty hmsg⟩ <;>
    simp [processPayment, hmsg]

/-- Witness for C3: a payment of -50 against the sample invoice fails with
a FAILED record, a non-empty message, and the invoice unchanged. -/
theorem c3_witness :
    (processPayment defaultConfig sampleInvoice (.num (-50)) "CASH"
      { time := .num 0 } "p1" "r1").success = false ∧
    (processPayment defaultConfig sampleInvoice (.num (-50)) "CASH"
      { time := .num 0 } "p1" "r1").payment =
      { id := "p1", invoiceId := sampleInvoice.id, paymentMethod := "CASH",
        amount := .num (-50), paymentDate := { time := .num 0 },
        referenceNumber := "r1", status := .FAILED } ∧
    (processPayment defaultConfig sampleInvoice (.num (-50)) "CASH"
      { time := .num 0 } "p1" "r1").invoice = sampleInvoice ∧
    ∃ msg, (processPayment defaultConfig sampleInvoice (.num (-50)) "CASH"
      { time := .num 0 } "p1" "r1").error = some msg ∧ msg ≠ "" :=
  c3_processPayment_failure defaultConfig sampleInvoice (.num (-50)) "CASH"
    { time := .num 0 } "p1" "r1"
    (Or.inr (Or.inl (by simp [JSNum.leB])))

/-- C5: `processPayment` never changes the identifying and monetary fields
of the invoice other than `outstandingAmount` and `status`: on success the
returned invoice agrees with the input on id, invoiceNumber, invoiceDate,
items, subtotal, totalTax and totalAmount; on failure the returned invoice
is the original value.  (Reference-level mutation is not observable in this
value model; `cloneInvoice` is the identity on values.) -/
theorem c5_processPayment_immutability (cfg : Config) (invoice : Invoice) (amt : JSNum)
    (mth : String) (dt : JSDate) (newId refNumber : String) :
    ((processPayment cfg invoice amt mth dt newId refNumber).success = true →
      (processPayment cfg invoice amt mth dt newId refNumber).invoice.id = invoice.id ∧
      (processPayment cfg invoice amt mth dt newId refNumber).invoice.invoiceNumber =
        invoice.invoiceNumber ∧
      (processPayment cfg invoice amt mth dt newId refNumber).invoice.invoiceDate =
        invoice.invoiceDate ∧
      (processPayment cfg invoice amt mth dt newId refNumber).invoice.items = invoice.items ∧
      (processPayment cfg invoice amt mth dt newId refNumber).invoice.subtotal =
        invoice.subtotal ∧
      (processPayment cfg invoice amt mth dt newId refNumber).invoice.totalTax =
        invoice.totalTax ∧
      (processPayment cfg invoice amt mth dt newId refNumber).invoice.totalAmount =
        invoice.totalAmount) ∧
    ((processPayment cfg invoice amt mth dt newId refNumber).success = false →
      (processPayment cfg invoice amt mth dt newId refNumber).invoice = invoice) := by
  cases hfpe : firstPaymentError cfg invoice amt mth dt with
  | some msg =>
    constructor
    · intro hs
      simp [processPayment, hfpe] at hs
    · intro _
      simp [processPayment, hfpe]
  | none =>
    constructor
    · intro _
      simp [processPayment, hfpe, cloneInvoice_eq, updateInvoiceStatus]
    · intro hs
      simp [processPayment, hfpe] at hs

/-- Witness for C5: the successful cash payment of 50 against the sample
invoice leaves all fields except the outstanding amount and status
untouched. -/
theorem c5_witness :
    (processPayment defaultConfig sampleInvoice (.num 50) "CASH"
      { time := .num 0 } "p1" "r1").invoice.items = sampleInvoice.items ∧
    (processPayment defaultConfig sampleInvoice (.num 50) "CASH"
      { time := .num 0 } "p1" "r1").invoice.totalAmount = sampleInvoice.totalAmount :=
  have h := c5_processPayment_immutability defaultConfig sampleInvoice (.num 50) "CASH"
    { time := .num 0 } "p1" "r1"
  have hs : (processPayment defaultConfig sampleInvoice (.num 50) "CASH"
      { time := .num 0 } "p1" "r1").success = true := by
    have hfpe : firstPaymentError defaultConfig sampleInvoice (.num 50) "CASH"
        { time := .num 0 } = none := by
      rw [firstPaymentError_eq_none_iff]
      refine ⟨?_, ?_, by decide, rfl, by decide, by decide⟩
      · rw [validatePositiveNumber_eq_none_iff]
        refine ⟨rfl, by simp [JSNum.leB], rfl⟩
      · rw [validatePaymentAmountLimits_eq_none_iff]
        constructor
        · simp [JSNum.ltB, defaultConfig]; norm_num
        · simp [JSNum.ltB, defaultConfig]; norm_num
    simp [processPayment, hfpe]
  ⟨((h.1 hs).2.2.2.1), ((h.1 hs).2.2.2.2.2.2)⟩

/-! ### C6 and C8: invoice totaling -/

theorem orError_none {α : Type} (k : Except String α) : orError none k = k := rfl

theorem orError_some {α : Type} (e : String) (k : Except String α) :
    orError (some e) k = .error e := rfl

theorem andThen_ok {α β : Type} (b : β) (k : β → Except String α) :
    andThen (.ok b) k = k b := rfl

theorem andThen_error {α β : Type} (e : String) (k : β → Except String α) :
    andThen (.error e) k = (.error e : Except String α) := rfl

/-- Inversion of a successful totaling run: the subtotal and total tax are
defensively rounded sums over the processed items, and the total amount is
the rounded sum of the two. -/
theorem calculateInvoiceTotal_ok_shape {cfg : Config} {genId : Nat → String}
    {items : List InvoiceItemInput} {taxRate : ℚ} {t : InvoiceTotals}
    (h : calculateInvoiceTotal cfg genId items taxRate = .ok t) :
    t.subtotal = sumWithRounding
      (t.items.map fun item => roundToTwoDecimals (item.quantity * item.unitPrice)) ∧
    t.totalTax = sumWithRounding (t.items.map fun item => item.taxAmount) ∧
    t.totalAmount = roundToTwoDecimals (t.subtotal + t.totalTax) := by
  unfold calculateInvoiceTotal at h
  by_cases he : items.isEmpty
  · rw [if_pos he] at h; exact Except.noConfusion h
  rw [if_neg he] at h
  cases hv : validateTaxRate taxRate with
  | some e => rw [hv, orError_some] at h; exact Except.noConfusion h
  | none =>
  rw [hv, orError_none] at h
  cases hp : processItems cfg genId 0 items taxRate with
  | error e => rw [hp, andThen_error] at h; exact Except.noConfusion h
  | ok pis =>
  rw [hp, andThen_ok] at h
  beta_reduce at h
  cases hvi : validateInvoiceAmount cfg (roundToTwoDecimals
      (sumWithRounding (pis.map fun item =>
         roundToTwoDecimals (item.quantity * item.unitPrice)) +
       sumWithRounding (pis.map fun item => item.taxAmount))) with
  | some e => rw [hvi, orError_some] at h; exact Except.noConfusion h
  | none =>
  rw [hvi, orError_none] at h
  rw [← Except.ok.inj h]
  exact ⟨rfl, rfl, rfl⟩

/-- C6: any totals produced by `calculateInvoiceTotal` satisfy
`totalAmount = roundCurrency(subtotal + totalTax)` and — because both
summands are whole numbers of cents — the exact equality
`subtotal + totalTax = totalAmount`; any invoice produced by
`createInvoice` from the same run satisfies the same equality; and every
subsequent `processPayment` (successful or failed) leaves `subtotal`,
`totalTax` and `totalAmount` unchanged, so the equality is preserved. -/
theorem c6_conservation (cfg : Config) (genId : Nat → String)
    (items : List InvoiceItemInput) (taxRate : ℚ) (t : InvoiceTotals)
    (h : calculateInvoiceTotal cfg genId items taxRate = .ok t) :
    t.totalAmount = roundToTwoDecimals (t.subtotal + t.totalTax) ∧
    t.subtotal + t.totalTax = t.totalAmount ∧
    (∀ (dtv : JSDate) (nid invnum : String) (inv : Invoice),
      createInvoice cfg genId items taxRate dtv nid invnum = .ok inv →
        inv.subtotal + inv.totalTax = inv.totalAmount) ∧
    (∀ (cfg2 : Config) (invoice : Invoice) (amt : JSNum) (mth : String) (dt : JSDate)
        (newId refNumber : String),
      (processPayment cfg2 invoice amt mth dt newId refNumber).invoice.subtotal =
        invoice.subtotal ∧
      (processPayment cfg2 invoice amt mth dt newId refNumber).invoice.totalTax =
        invoice.totalTax ∧
      (processPayment cfg2 invoice amt mth dt newId refNumber).invoice.totalAmount =
        invoice.totalAmount) := by
  obtain ⟨hs, ht, ha⟩ := calculateInvoiceTotal_ok_shape h
  have hsc : IsCentMultiple t.subtotal := by
    rw [hs]; unfold sumWithRounding; exact roundToTwoDecimals_isCent _
  have htc : IsCentMultiple t.totalTax := by
    rw [ht]; unfold sumWithRounding; exact roundToTwoDecimals_isCent _
  have hfix : roundToTwoDecimals (t.subtotal + t.totalTax) = t.subtotal + t.totalTax :=
    roundToTwoDecimals_eq_self (hsc.add htc)
  have hsum : t.subtotal + t.totalTax = t.totalAmount := by rw [ha, hfix]
  refine ⟨ha, hsum, ?_, ?_⟩
  · intro dtv nid invnum inv h2
    unfold createInvoice at h2
    cases hd : validateDate dtv "Invoice date" with
    | some e => rw [hd] at h2; exact Except.noConfusion h2
    | none =>
      rw [hd, h] at h2
      rw [← Except.ok.inj h2]
      exact hsum
  · intro cfg2 invoice amt mth dt newId refNumber
    cases hfpe : firstPaymentError cfg2 invoice amt mth dt with
    | some msg => refine ⟨?_, ?_, ?_⟩ <;> simp [processPayment, hfpe]
    | none => refine ⟨?_, ?_, ?_⟩ <;>
        simp [processPayment, hfpe, cloneInvoice_eq, updateInvoiceStatus]

/-- Processing the Monthly Fee input produces line subtotal 500, tax 35
and line total 535. -/
theorem demo_item1 (genId : Nat → String) :
    processItem defaultConfig genId 0 ⟨"Monthly Fee", 1, 500⟩ (7 / 100) =
      .ok ⟨genId 0, "Monthly Fee", 1, 500, 535, 7 / 100, 35⟩ := by
  unfold processItem
  rw [show validateNonEmptyString "Monthly Fee" "Item description" = none from by decide]
  rw [show validatePositiveNumber (.num 1) "Item quantity" = none from by
    norm_num [validatePositiveNumber, JSNum.isNaN, JSNum.leB, JSNum.isFinite]]
  rw [show validateNonNegativeNumber (.num 500) "Item unit price" = none from by
    norm_num [validateNonNegativeNumber, JSNum.isNaN, JSNum.ltB, JSNum.isFinite]]
  rw [show roundToTwoDecimals ((1 : ℚ) * 500) = 500 from by
    norm_num [roundToTwoDecimals, jsRound]]
  rw [show validateLineItemAmount defaultConfig 500 = none from by
    norm_num [validateLineItemAmount, defaultConfig]]
  rw [orError_none, orError_none, orError_none, orError_none]
  rw [show calculateTaxAmount 500 (7 / 100) = 35 from by
    norm_num [calculateTaxAmount, roundToTwoDecimals, jsRound]]
  rw [show roundToTwoDecimals ((500 : ℚ) + 35) = 535 from by
    norm_num [roundToTwoDecimals, jsRound]]

/-- Processing the Activity Fee input produces line subtotal 51, tax 3.57
and line total 54.57. -/
theorem demo_item2 (genId : Nat → String) :
    processItem defaultConfig genId 1 ⟨"Activity Fee", 2, 51 / 2⟩ (7 / 100) =
      .ok ⟨genId 1, "Activity Fee", 2, 51 / 2, 5457 / 100, 7 / 100, 357 / 100⟩ := by
  unfold processItem
  rw [show validateNonEmptyString "Activity Fee" "Item description" = none from by decide]
  rw [show validatePositiveNumber (.num 2) "Item quantity" = none from by
    norm_num [validatePositiveNumber, JSNum.isNaN, JSNum.leB, JSNum.isFinite]]
  rw [show validateNonNegativeNumber (.num (51 / 2)) "Item unit price" = none from by
    norm_num [validateNonNegativeNumber, JSNum.isNaN, JSNum.ltB, JSNum.isFinite]]
  rw [show roundToTwoDecimals ((2 : ℚ) * (51 / 2)) = 51 from by
    norm_num [roundToTwoDecimals, jsRound]]
  rw [show validateLineItemAmount defaultConfig 51 = none from by
    norm_num [validateLineItemAmount, defaultConfig]]
  rw [orError_none, orError_none, orError_none, orError_none]
  rw [show calculateTaxAmount 51 (7 / 100) = 357 / 100 from by
    norm_num [calculateTaxAmount, roundToTwoDecimals, jsRound]]
  rw [show roundToTwoDecimals ((51 : ℚ) + 357 / 100) = 5457 / 100 from by
    norm_num [roundToTwoDecimals, jsRound]]

theorem demo_processItems (genId : Nat → String) :
    processItems defaultConfig genId 0 demoItems (7 / 100) = .ok
      [⟨genId 0, "Monthly Fee", 1, 500, 535, 7 / 100, 35⟩,
       ⟨genId 1, "Activity Fee", 2, 51 / 2, 5457 / 100, 7 / 100, 357 / 100⟩] := by
  unfold demoItems
  simp only [processItems]
  rw [demo_item1 genId, andThen_ok]
  beta_reduce
  rw [demo_item2 genId, andThen_ok]
  beta_reduce
  rw [andThen_ok]
  beta_reduce
  rw [andThen_ok]

theorem demo_subtotal (id1 id2 : String) :
    sumWithRounding ((([⟨id1, "Monthly Fee", 1, 500, 535, 7 / 100, 35⟩,
       ⟨id2, "Activity Fee", 2, 51 / 2, 5457 / 100, 7 / 100, 357 / 100⟩] :
         List InvoiceItem)).map fun item =>
           roundToTwoDecimals (item.quantity * item.unitPrice)) = 551 := by
  norm_num [sumWithRounding, roundToTwoDecimals, jsRound]

theorem demo_totalTax (id1 id2 : String) :
    sumWithRounding ((([⟨id1, "Monthly Fee", 1, 500, 535, 7 / 100, 35⟩,
       ⟨id2, "Activity Fee", 2, 51 / 2, 5457 / 100, 7 / 100, 357 / 100⟩] :
         List InvoiceItem)).map fun item => item.taxAmount) = 3857 / 100 := by
  norm_num [sumWithRounding, roundToTwoDecimals, jsRound]

/-- Full evaluation of the worked scenario, for any id generator. -/
theorem calc_demo (genId : Nat → String) :
    calculateInvoiceTotal defaultConfig genId demoItems (7 / 100) = .ok
      { subtotal := 551, totalTax := 3857 / 100, totalAmount := 58957 / 100,
        items := [⟨genId 0, "Monthly Fee", 1, 500, 535, 7 / 100, 35⟩,
                  ⟨genId 1, "Activity Fee", 2, 51 / 2, 5457 / 100, 7 / 100, 357 / 100⟩] } := by
  unfold calculateInvoiceTotal
  rw [if_neg (by decide : ¬(demoItems.isEmpty = true))]
  rw [show validateTaxRate (7 / 100) = none from by
    norm_num [validateTaxRate, validateNonNegativeNumber, JSNum.isNaN, JSNum.ltB,
      JSNum.isFinite], orError_none]
  rw [demo_processItems genId, andThen_ok]
  beta_reduce
  rw [demo_subtotal, demo_totalTax]
  rw [show roundToTwoDecimals ((551 : ℚ) + 3857 / 100) = 58957 / 100 from by
    norm_num [roundToTwoDecimals, jsRound]]
  rw [show validateInvoiceAmount defaultConfig (58957 / 100) = none from by
    norm_num [validateInvoiceAmount, defaultConfig], orError_none]

/-- Witness for C6 at the worked scenario: the computed totals satisfy
`subtotal + totalTax = totalAmount` on the nose. -/
theorem c6_witness :
    calculateInvoiceTotal defaultConfig (fun _ => "demo") demoItems (7 / 100) = .ok
      { subtotal := 551, totalTax := 3857 / 100, totalAmount := 58957 / 100,
        items := [⟨"demo", "Monthly Fee", 1, 500, 535, 7 / 100, 35⟩,
                  ⟨"demo", "Activity Fee", 2, 51 / 2, 5457 / 100, 7 / 100, 357 / 100⟩] } ∧
    (551 : ℚ) + 3857 / 100 = 58957 / 100 :=
  have hcalc := calc_demo (fun _ => "demo")
  ⟨hcalc, (c6_conservation defaultConfig (fun _ => "demo") demoItems (7 / 100) _ hcalc).2.1⟩

/-- C8: on the spec's worked scenario — items
`[{Monthly Fee, 1, 500.00}, {Activity Fee, 2, 25.50}]` with tax rate 0.07 —
`calculateInvoiceTotal` returns subtotal 551.00, totalTax 38.57,
totalAmount 589.57, and line totals 535.00 and 54.57 (per item:
`lineSubtotal = roundCurrency(quantity*unitPrice)`,
`taxAmount = roundCurrency(lineSubtotal*taxRate)`,
`lineTotal = roundCurrency(lineSubtotal+taxAmount)`). -/
theorem c8_worked_scenario (genId : Nat → String) :
    calculateInvoiceTotal defaultConfig genId demoItems (7 / 100) = .ok
      { subtotal := 551, totalTax := 3857 / 100, totalAmount := 58957 / 100,
        items := [⟨genId 0, "Monthly Fee", 1, 500, 535, 7 / 100, 35⟩,
                  ⟨genId 1, "Activity Fee", 2, 51 / 2, 5457 / 100, 7 / 100, 357 / 100⟩] } :=
  calc_demo genId

end Billing
